import Mathlib

/-!
Verification development for the Bluejay repository (F1 voice race engineer).

The file shallowly embeds the two source modules the claims are about:

* `src/main/backend/agent/tools.py` — the `F1Tools` class of pure arithmetic
  helpers (championship scenario, race points, points swing, pit-stop time
  loss).  Python unbounded `int` is embedded as `Int`; Python `float`
  arithmetic is embedded as exact `ℚ` arithmetic (all the operations involved
  are `+ - * /` and `round`); Python dictionaries returned by the tools are
  embedded as Lean structures whose field names are the dictionary keys.
  Python's `round(x, n)` (round-half-to-even) is embedded as `pyRound` over
  `ℚ`.  A Python expression that can raise (`x / 0` raises
  `ZeroDivisionError`) is embedded with an explicit `Option`.

* `src/main/backend/agent/rag_pipeline.py` — the `F1TechnicalRAG` class and
  `initialize_rag_pipeline`.  The external collaborators (filesystem, PDF
  loader, text splitter, OpenAI embeddings, Chroma vector store) are modelled
  as abstract parameters: the filesystem as a predicate `String → Bool` on
  paths, the retriever produced by the vector store as a function
  `String → Except RagError (List Doc)` that may fail, and the build work done
  by the external libraries as an explicit `BuildStep` trace.  Python
  exceptions are embedded as `Except RagError`.
-/

set_option autoImplicit false

/-- Round a rational to the nearest integer, halves to the even integer.
Embeds the behaviour of Python's builtin `round` on an exact value. -/
def roundHalfEven (q : ℚ) : Int :=
  if q - Int.floor q < 1/2 then Int.floor q
  else if q - Int.floor q > 1/2 then Int.floor q + 1
  else if Int.floor q % 2 = 0 then Int.floor q else Int.floor q + 1

/-- Python's `round(x, ndigits)` on an exact rational value. -/
def pyRound (q : ℚ) (ndigits : Nat) : ℚ :=
  (roundHalfEven (q * 10 ^ ndigits) : ℚ) / 10 ^ ndigits

namespace F1Tools

/-- Embeds the class constant `F1Tools.RACE_POINTS` together with the access
idiom `RACE_POINTS.get(position, 0)` used at tools.py line 129: the fixed
dictionary `{1: 25, 2: 18, 3: 15, 4: 12, 5: 10, 6: 8, 7: 6, 8: 4, 9: 2, 10: 1}`
read with default `0`. -/
def RACE_POINTS (position : Int) : Int :=
  if position = 1 then 25 else if position = 2 then 18
  else if position = 3 then 15 else if position = 4 then 12
  else if position = 5 then 10 else if position = 6 then 8
  else if position = 7 then 6 else if position = 8 then 4
  else if position = 9 then 2 else if position = 10 then 1
  else 0

/-- Embeds `F1Tools.SPRINT_POINTS` with the access idiom
`SPRINT_POINTS.get(position, 0)` of tools.py line 127: the dictionary
`{1: 8, 2: 7, 3: 6, 4: 5, 5: 4, 6: 3, 7: 2, 8: 1}` read with default `0`. -/
def SPRINT_POINTS (position : Int) : Int :=
  if position = 1 then 8 else if position = 2 then 7
  else if position = 3 then 6 else if position = 4 then 5
  else if position = 5 then 4 else if position = 6 then 3
  else if position = 7 then 2 else if position = 8 then 1
  else 0

/-- Embeds the class constant `F1Tools.FASTEST_LAP_POINTS = 1`. -/
def FASTEST_LAP_POINTS : Int := 1

/-- Embeds `F1Tools.calculate_race_points` (tools.py lines 109-135). -/
def calculate_race_points (position : Int) (has_fastest_lap : Bool)
    (is_sprint : Bool) : Int :=
  if is_sprint then SPRINT_POINTS position
  else
    let points := RACE_POINTS position
    if has_fastest_lap ∧ position ≤ 10 then points + FASTEST_LAP_POINTS
    else points

/-- Embeds the dictionaries appended to `scenarios` in
`calculate_championship_scenario` (tools.py lines 71-81). -/
structure ScenarioEntry where
  scenario : String
  outcome : String
  condition : String
  deriving DecidableEq, Repr

/-- Embeds the nested `"analysis"` dictionary returned by
`calculate_championship_scenario` (tools.py lines 101-106). -/
structure ChampionshipAnalysis where
  leader_current : Int
  chaser_current : Int
  chaser_best_case_total : Int
  leader_max_possible : Int
  deriving DecidableEq, Repr

/-- Embeds the dictionary returned by `calculate_championship_scenario`
(tools.py lines 90-107). -/
structure ChampionshipScenarioResult where
  current_gap : Int
  leader : String
  chaser : String
  mathematically_possible : Bool
  races_remaining : Int
  sprint_races : Int
  maximum_points_available : Int
  points_chaser_needs : Int
  average_points_per_race_needed : ℚ
  scenarios : List ScenarioEntry
  analysis : ChampionshipAnalysis
  deriving DecidableEq, Repr

/-- Embeds `F1Tools.calculate_championship_scenario` (tools.py lines 24-107).
The locals `chaser_p2_points` and `chaser_p2_total` computed at source lines
84-85 do not appear in the returned dictionary and are omitted.  The division
`points_needed / races_remaining` at line 88 is guarded by the source's own
`if races_remaining > 0 ... else 0`, so it never divides by zero. -/
def calculate_championship_scenario (driver1_points driver2_points
    races_remaining sprint_races : Int) : ChampionshipScenarioResult :=
  let max_race_points := races_remaining * (25 + 1)
  let max_sprint_points := sprint_races * 8
  let total_max_points := max_race_points + max_sprint_points
  let points_gap := |driver1_points - driver2_points|
  let leader := if driver1_points > driver2_points then "Driver 1" else "Driver 2"
  let chaser := if leader = "Driver 1" then "Driver 2" else "Driver 1"
  let mathematically_possible := decide (points_gap ≤ total_max_points)
  let points_needed := points_gap + 1
  let chaser_current := if chaser = "Driver 2" then driver2_points else driver1_points
  let chaser_best_case := chaser_current + total_max_points
  let leader_current := if leader = "Driver 1" then driver1_points else driver2_points
  let scenarios :=
    if mathematically_possible then
      let leader_max_allowed := chaser_best_case - 1
      let points_leader_can_score := leader_max_allowed - leader_current
      [{ scenario := "Chaser wins all remaining races"
         outcome := "Championship possible"
         condition := "Leader must score fewer than " ++
           toString points_leader_can_score ++ " points total" }]
    else
      [{ scenario := "Championship decided"
         outcome := "Mathematically impossible for chaser to win"
         condition := "Gap of " ++ toString points_gap ++
           " points exceeds maximum available " ++ toString total_max_points }]
  let avg_points_per_race : ℚ :=
    if races_remaining > 0 then (points_needed : ℚ) / (races_remaining : ℚ) else 0
  { current_gap := points_gap
    leader := leader
    chaser := chaser
    mathematically_possible := mathematically_possible
    races_remaining := races_remaining
    sprint_races := sprint_races
    maximum_points_available := total_max_points
    points_chaser_needs := points_needed
    average_points_per_race_needed := pyRound avg_points_per_race 1
    scenarios := scenarios
    analysis :=
      { leader_current := leader_current
        chaser_current := chaser_current
        chaser_best_case_total := chaser_best_case
        leader_max_possible := leader_current + total_max_points } }

/-- The quantity `points_leader_can_score = (chaser_best_case - 1) - leader_current`
interpolated into the scenario condition string at tools.py lines 69-74,
recomputed from the same inputs with the same intermediate formulas. -/
def leader_points_allowance (driver1_points driver2_points
    races_remaining sprint_races : Int) : Int :=
  let total_max_points := races_remaining * (25 + 1) + sprint_races * 8
  let leader := if driver1_points > driver2_points then "Driver 1" else "Driver 2"
  let chaser := if leader = "Driver 1" then "Driver 2" else "Driver 1"
  let chaser_current := if chaser = "Driver 2" then driver2_points else driver1_points
  let chaser_best_case := chaser_current + total_max_points
  let leader_current := if leader = "Driver 1" then driver1_points else driver2_points
  (chaser_best_case - 1) - leader_current

/-- Embeds the dictionary returned by `calculate_points_swing`
(tools.py lines 161-166). -/
structure PointsSwingResult where
  driver1_points : Int
  driver2_points : Int
  points_swing : Int
  advantage : String
  deriving DecidableEq, Repr

/-- Embeds `F1Tools.calculate_points_swing` (tools.py lines 137-166); both
calls to `calculate_race_points` leave `is_sprint` at its default `False`. -/
def calculate_points_swing (driver1_position driver2_position : Int)
    (driver1_fastest_lap driver2_fastest_lap : Bool) : PointsSwingResult :=
  let d1_points := calculate_race_points driver1_position driver1_fastest_lap false
  let d2_points := calculate_race_points driver2_position driver2_fastest_lap false
  let swing := d1_points - d2_points
  { driver1_points := d1_points
    driver2_points := d2_points
    points_swing := swing
    advantage :=
      if swing > 0 then "Driver 1" else if swing < 0 then "Driver 2" else "Equal" }

/-- Embeds the nested `"details"` dictionary returned by
`calculate_pit_stop_time_loss` (tools.py lines 204-208). -/
structure PitStopDetails where
  pit_lane_length_m : ℚ
  speed_limit_kmh : Int
  equivalent_distance_lost_m : ℚ
  deriving DecidableEq, Repr

/-- Embeds the dictionary returned by `calculate_pit_stop_time_loss`
(tools.py lines 199-209). -/
structure PitStopResult where
  pit_lane_time_seconds : ℚ
  tire_change_time_seconds : ℚ
  total_pit_stop_time : ℚ
  time_loss_vs_racing : ℚ
  details : PitStopDetails
  deriving DecidableEq, Repr

/-- The fixed reference racing speed `200 / 3.6` m/s of tools.py line 195. -/
def racing_speed_ms : ℚ := 200 / 3.6

/-- Embeds `F1Tools.calculate_pit_stop_time_loss` (tools.py lines 168-209).
`speed_ms = pit_lane_speed_limit_kmh / 3.6` is `0` exactly when the integer
speed limit is `0`, and then the Python division
`pit_lane_length_meters / speed_ms` raises `ZeroDivisionError`; that raise is
embedded as `none`. -/
def calculate_pit_stop_time_loss (pit_lane_length_meters : ℚ)
    (pit_lane_speed_limit_kmh : Int) (tire_change_seconds : ℚ) :
    Option PitStopResult :=
  let speed_ms : ℚ := (pit_lane_speed_limit_kmh : ℚ) / 3.6
  if speed_ms = 0 then none
  else
    let pit_lane_time := pit_lane_length_meters / speed_ms
    let total_time := pit_lane_time + tire_change_seconds
    let time_if_racing := pit_lane_length_meters / racing_speed_ms
    let time_loss := total_time - time_if_racing
    some
      { pit_lane_time_seconds := pyRound pit_lane_time 2
        tire_change_time_seconds := tire_change_seconds
        total_pit_stop_time := pyRound total_time 2
        time_loss_vs_racing := pyRound time_loss 2
        details :=
          { pit_lane_length_m := pit_lane_length_meters
            speed_limit_kmh := pit_lane_speed_limit_kmh
            equivalent_distance_lost_m := pyRound (time_loss * racing_speed_ms) 0 } }

/-- The raw (unrounded) pit-lane transit time `length / (speed / 3.6)` of
tools.py lines 186-189. -/
def pit_lane_time_raw (pit_lane_length_meters : ℚ)
    (pit_lane_speed_limit_kmh : Int) : ℚ :=
  pit_lane_length_meters / ((pit_lane_speed_limit_kmh : ℚ) / 3.6)

/-- The raw total pit-stop time `pit_lane_time + tire_change_seconds` of
tools.py line 192. -/
def total_pit_time_raw (pit_lane_length_meters : ℚ)
    (pit_lane_speed_limit_kmh : Int) (tire_change_seconds : ℚ) : ℚ :=
  pit_lane_time_raw pit_lane_length_meters pit_lane_speed_limit_kmh +
    tire_change_seconds

/-- The raw time loss `total_time - length / (200 / 3.6)` of tools.py
lines 195-197. -/
def time_loss_raw (pit_lane_length_meters : ℚ)
    (pit_lane_speed_limit_kmh : Int) (tire_change_seconds : ℚ) : ℚ :=
  total_pit_time_raw pit_lane_length_meters pit_lane_speed_limit_kmh
      tire_change_seconds -
    pit_lane_length_meters / (200 / 3.6)

end F1Tools

/-- Embeds a LangChain document as used in rag_pipeline.py: `page_content`
plus the `page` metadata read by `doc.metadata.get('page', 'unknown')`
(line 105), with an absent key embedded as `none`. -/
structure Doc where
  page : Option Int
  page_content : String
  deriving DecidableEq, Repr

/-- Embeds the Python exceptions arising in rag_pipeline.py: the
`FileNotFoundError` raised by the constructor (line 38), the `ValueError`
raised by `query` before initialization (line 96), and any exception escaping
the embedding provider or the vector index during retrieval (caught at
line 143). -/
inductive RagError where
  | fileNotFound (msg : String)
  | valueError (msg : String)
  | retrievalError (msg : String)
  deriving DecidableEq, Repr

/-- The `str(e)` rendering used when `get_context_for_agent` formats a caught
exception (rag_pipeline.py line 145). -/
def RagError.message : RagError → String
  | RagError.fileNotFound msg => msg
  | RagError.valueError msg => msg
  | RagError.retrievalError msg => msg

/-- Embeds the result dictionary of `F1TechnicalRAG.query`
(rag_pipeline.py lines 111-115). -/
structure QueryResult where
  context : String
  sources : List Doc
  num_sources : Nat
  deriving DecidableEq, Repr

/-- Embeds the per-document formatting expression
`f"[Source: Page \x7bdoc.metadata.get('page', 'unknown')\x7d]\n\x7bdoc.page_content\x7d"`
of rag_pipeline.py line 105. -/
def formatSource (doc : Doc) : String :=
  "[Source: Page " ++
    (match doc.page with
     | some n => toString n
     | none => "unknown") ++
    "]\n" ++ doc.page_content

/-- The fixed result count `k = 4` passed in `search_kwargs` when the
retriever is configured (rag_pipeline.py lines 78 and 169). -/
def search_k : Nat := 4

/-- Embeds the state of an `F1TechnicalRAG` instance: the stored `pdf_path`
and the `retriever` attribute, `none` until a vector store has been built or
loaded.  The retriever itself — Chroma similarity search preceded by the
OpenAI embedding call (`get_relevant_documents`, line 101) — is an external
collaborator and is modelled as an abstract function that returns the
retrieved documents in order or fails with an exception. -/
structure F1TechnicalRAG where
  pdf_path : String
  retriever : Option (String → Except RagError (List Doc))

/-- Embeds `F1TechnicalRAG.__init__` (rag_pipeline.py lines 23-43): store the
path, leave `vectorstore`/`retriever` unset, and raise `FileNotFoundError`
when `Path(pdf_path).exists()` is false.  The filesystem is modelled by the
predicate `fs` on paths and `os.getcwd()` by the parameter `cwd`. -/
def F1TechnicalRAG.init (fs : String → Bool) (cwd : String)
    (pdf_path : String) : Except RagError F1TechnicalRAG :=
  if fs pdf_path then Except.ok { pdf_path := pdf_path, retriever := none }
  else
    Except.error (RagError.fileNotFound
      ("Please place the F1 regulations PDF at " ++ pdf_path ++
        "\nCurrent working directory: " ++ cwd))

/-- The build work delegated to external libraries in rag_pipeline.py,
recorded as an explicit trace: PDF loading (`PyPDFLoader.load`, line 51),
chunk splitting (`RecursiveCharacterTextSplitter.split_documents`, line 64),
embedding plus index persistence (`Chroma.from_documents`, lines 69-73), and
loading an existing persisted store (`Chroma(persist_directory=...)`,
lines 163-166). -/
inductive BuildStep where
  | loadPdf
  | chunkDocuments
  | embedDocuments
  | loadExistingStore
  deriving DecidableEq, Repr

/-- Embeds `F1TechnicalRAG.load_and_process_pdf` (rag_pipeline.py
lines 45-83): run the loader, splitter and embedding build — modelled as the
trace of steps — and install the retriever obtained from the new vector
store. -/
def F1TechnicalRAG.load_and_process_pdf (rag : F1TechnicalRAG)
    (store_retriever : String → Except RagError (List Doc)) :
    F1TechnicalRAG × List BuildStep :=
  ({ rag with retriever := some store_retriever },
   [BuildStep.loadPdf, BuildStep.chunkDocuments, BuildStep.embedDocuments])

/-- Embeds `F1TechnicalRAG.query` (rag_pipeline.py lines 85-115): raise
`ValueError` when the retriever is unset, otherwise retrieve documents,
join the formatted sources with blank lines, and return the result
dictionary. -/
def F1TechnicalRAG.query (rag : F1TechnicalRAG) (question : String) :
    Except RagError QueryResult :=
  match rag.retriever with
  | none =>
    Except.error (RagError.valueError
      "RAG pipeline not initialized. Call load_and_process_pdf() first.")
  | some retr =>
    match retr question with
    | Except.error e => Except.error e
    | Except.ok relevant_docs =>
      Except.ok
        { context := String.intercalate "\n\n" (relevant_docs.map formatSource)
          sources := relevant_docs
          num_sources := relevant_docs.length }

/-- Embeds `F1TechnicalRAG.get_context_for_agent` (rag_pipeline.py
lines 117-145): the `try`/`except` around `query`, the zero-source sentinel,
the formatted success string, and the caught-exception string. -/
def F1TechnicalRAG.get_context_for_agent (rag : F1TechnicalRAG)
    (question : String) : String :=
  match rag.query question with
  | Except.ok result =>
    if result.num_sources = 0 then
      "No relevant information found in the regulations."
    else
      "\nBased on the FIA F1 Regulations, here is the relevant information:\n\n"
        ++ result.context ++
        "\n\nUse this information to answer the user's question accurately, citing specific articles when possible.\n"
  | Except.error e => "Error accessing regulations: " ++ e.message

/-- Embeds `initialize_rag_pipeline` (rag_pipeline.py lines 148-176): run the
constructor (which raises on a missing PDF), then either load the persisted
vector store when `Path("./chroma_db").exists()` or build a new one via
`load_and_process_pdf`.  The returned trace records the external build work
performed; an exception propagates with an empty trace. -/
def initialize_rag_pipeline (fs : String → Bool)
    (store_retriever : String → Except RagError (List Doc)) (cwd : String)
    (pdf_path : String) : Except RagError F1TechnicalRAG × List BuildStep :=
  match F1TechnicalRAG.init fs cwd pdf_path with
  | Except.error e => (Except.error e, [])
  | Except.ok rag =>
    if fs "./chroma_db" then
      (Except.ok { rag with retriever := some store_retriever },
       [BuildStep.loadExistingStore])
    else
      let built := rag.load_and_process_pdf store_retriever
      (Except.ok built.1, built.2)

/-! Concrete instances used to evaluate the theorems below on sample inputs. -/

/-- An `F1TechnicalRAG` fresh out of the constructor: no retriever yet. -/
def ragUninitialized : F1TechnicalRAG :=
  { pdf_path := "data/fia2026.pdf", retriever := none }

/-- A retriever over an empty index: every query matches zero documents. -/
def emptyRetriever : String → Except RagError (List Doc) :=
  fun _ => Except.ok []

/-- An initialized instance whose similarity search finds nothing. -/
def ragEmptyIndex : F1TechnicalRAG :=
  { pdf_path := "data/fia2026.pdf", retriever := some emptyRetriever }

/-- A sample retrieved document with page metadata. -/
def docA : Doc := { page := some 12, page_content := "Article 5.1 text" }

/-- A second sample retrieved document. -/
def docB : Doc := { page := some 3, page_content := "Article 7 text" }

/-- A retriever that returns the two sample documents for every question. -/
def sampleRetriever : String → Except RagError (List Doc) :=
  fun _ => Except.ok [docA, docB]

/-- An initialized instance over the two-document sample index. -/
def ragReady : F1TechnicalRAG :=
  { pdf_path := "data/fia2026.pdf", retriever := some sampleRetriever }

/-- A filesystem on which no path exists. -/
def emptyFs : String → Bool := fun _ => false

/-- A filesystem on which exactly the persisted index directory
`./chroma_db` exists — the source PDF `data/fia2026.pdf` does not. -/
def fsIndexOnly : String → Bool := fun p => p == "./chroma_db"

/-! Theorems for the frozen claims. -/

/-- C2: for all integer inputs, `calculate_championship_scenario` returns
maximum remaining points `races_remaining * 26 + sprint_races * 8`, current
gap `|driver1_points - driver2_points|`, and `mathematically_possible` true
exactly when the gap is at most the maximum remaining points; in particular
at `(400, 350, 3, 0)` it yields gap 50, maximum 78, and
`mathematically_possible = true`. -/
theorem championship_scenario_core (p1 p2 r s : Int) :
    (F1Tools.calculate_championship_scenario p1 p2 r s).maximum_points_available
      = r * 26 + s * 8 ∧
    (F1Tools.calculate_championship_scenario p1 p2 r s).current_gap = |p1 - p2| ∧
    ((F1Tools.calculate_championship_scenario p1 p2 r s).mathematically_possible
        = true ↔ |p1 - p2| ≤ r * 26 + s * 8) ∧
    (F1Tools.calculate_championship_scenario 400 350 3 0).current_gap = 50 ∧
    (F1Tools.calculate_championship_scenario 400 350 3 0).maximum_points_available
      = 78 ∧
    (F1Tools.calculate_championship_scenario 400 350 3 0).mathematically_possible
      = true := by
  refine ⟨?_, rfl, ?_, by decide, by decide, by decide⟩
  · show r * (25 + 1) + s * 8 = r * 26 + s * 8
    norm_num
  · show decide (|p1 - p2| ≤ r * (25 + 1) + s * 8) = true ↔ _
    rw [decide_eq_true_iff]
    norm_num

set_option maxHeartbeats 2000000 in
/-- C4: `calculate_race_points` returns the fixed race table for positions
1-10, the sprint table for positions 1-8 when `is_sprint`, and 0 for any
other position; the +1 fastest-lap bonus is added exactly when `is_sprint`
is false and `position ≤ 10`; the four sample evaluations hold. -/
theorem race_points_table :
    (∀ p : Int, p < 1 ∨ 10 < p → F1Tools.calculate_race_points p false false = 0) ∧
    (∀ (p : Int) (fl : Bool), p < 1 ∨ 8 < p →
      F1Tools.calculate_race_points p fl true = 0) ∧
    (∀ (p : Int) (fl : Bool), F1Tools.calculate_race_points p fl true =
      F1Tools.calculate_race_points p false true) ∧
    (∀ p : Int, p ≤ 10 → F1Tools.calculate_race_points p true false =
      F1Tools.calculate_race_points p false false + 1) ∧
    (∀ p : Int, 10 < p → F1Tools.calculate_race_points p true false =
      F1Tools.calculate_race_points p false false) ∧
    (F1Tools.calculate_race_points 1 false false = 25 ∧
     F1Tools.calculate_race_points 2 false false = 18 ∧
     F1Tools.calculate_race_points 3 false false = 15 ∧
     F1Tools.calculate_race_points 4 false false = 12 ∧
     F1Tools.calculate_race_points 5 false false = 10 ∧
     F1Tools.calculate_race_points 6 false false = 8 ∧
     F1Tools.calculate_race_points 7 false false = 6 ∧
     F1Tools.calculate_race_points 8 false false = 4 ∧
     F1Tools.calculate_race_points 9 false false = 2 ∧
     F1Tools.calculate_race_points 10 false false = 1) ∧
    (F1Tools.calculate_race_points 1 false true = 8 ∧
     F1Tools.calculate_race_points 2 false true = 7 ∧
     F1Tools.calculate_race_points 3 false true = 6 ∧
     F1Tools.calculate_race_points 4 false true = 5 ∧
     F1Tools.calculate_race_points 5 false true = 4 ∧
     F1Tools.calculate_race_points 6 false true = 3 ∧
     F1Tools.calculate_race_points 7 false true = 2 ∧
     F1Tools.calculate_race_points 8 false true = 1) ∧
    F1Tools.calculate_race_points 1 true false = 26 ∧
    F1Tools.calculate_race_points 11 false false = 0 := by
  refine ⟨?_, ?_, ?_, ?_, ?_, by decide, by decide, by decide, by decide⟩
  · intro p hp
    unfold F1Tools.calculate_race_points F1Tools.RACE_POINTS
    simp only [Bool.false_eq_true, false_and, if_false]
    split_ifs <;> omega
  · intro p fl hp
    unfold F1Tools.calculate_race_points F1Tools.SPRINT_POINTS
    simp only [if_true]
    split_ifs <;> omega
  · intro p fl
    unfold F1Tools.calculate_race_points
    simp
  · intro p hp
    unfold F1Tools.calculate_race_points
    simp [hp, F1Tools.FASTEST_LAP_POINTS]
  · intro p hp
    unfold F1Tools.calculate_race_points
    simp [hp]

/-- C4 witness: the theorem applied at position 11 with no fastest lap and
no sprint, and at position 5 with a fastest lap. -/
theorem race_points_table_witness :
    (((11 : Int) < 1 ∨ 10 < (11 : Int)) ∧
      F1Tools.calculate_race_points 11 false false = 0) ∧
    ((5 : Int) ≤ 10 ∧ F1Tools.calculate_race_points 5 true false =
      F1Tools.calculate_race_points 5 false false + 1) :=
  ⟨⟨Or.inr (by decide), race_points_table.1 11 (Or.inr (by decide))⟩,
   ⟨by decide, race_points_table.2.2.2.1 5 (by decide)⟩⟩

/-- C8: `calculate_points_swing` computes both drivers' points via
`calculate_race_points` on the standard race table, their signed difference,
and an advantage label naming the driver with strictly greater points, or
"Equal" on a tie; the sample `(2, 5)` yields 18, 10, swing 8, Driver 1. -/
theorem points_swing_spec (pos1 pos2 : Int) (fl1 fl2 : Bool) :
    (F1Tools.calculate_points_swing pos1 pos2 fl1 fl2).driver1_points =
      F1Tools.calculate_race_points pos1 fl1 false ∧
    (F1Tools.calculate_points_swing pos1 pos2 fl1 fl2).driver2_points =
      F1Tools.calculate_race_points pos2 fl2 false ∧
    (F1Tools.calculate_points_swing pos1 pos2 fl1 fl2).points_swing =
      F1Tools.calculate_race_points pos1 fl1 false -
        F1Tools.calculate_race_points pos2 fl2 false ∧
    (F1Tools.calculate_race_points pos1 fl1 false >
        F1Tools.calculate_race_points pos2 fl2 false →
      (F1Tools.calculate_points_swing pos1 pos2 fl1 fl2).advantage = "Driver 1") ∧
    (F1Tools.calculate_race_points pos2 fl2 false >
        F1Tools.calculate_race_points pos1 fl1 false →
      (F1Tools.calculate_points_swing pos1 pos2 fl1 fl2).advantage = "Driver 2") ∧
    (F1Tools.calculate_race_points pos1 fl1 false =
        F1Tools.calculate_race_points pos2 fl2 false →
      (F1Tools.calculate_points_swing pos1 pos2 fl1 fl2).advantage = "Equal") ∧
    F1Tools.calculate_points_swing 2 5 false false =
      { driver1_points := 18, driver2_points := 10, points_swing := 8,
        advantage := "Driver 1" } := by
  refine ⟨rfl, rfl, rfl, ?_, ?_, ?_, by decide⟩
  · intro h
    simp only [F1Tools.calculate_points_swing]
    rw [if_pos (by omega)]
  · intro h
    simp only [F1Tools.calculate_points_swing]
    rw [if_neg (by omega), if_pos (by omega)]
  · intro h
    simp only [F1Tools.calculate_points_swing]
    rw [if_neg (by omega), if_neg (by omega)]

/-- C8 witness: the theorem applied at positions 2 and 5 with no fastest
laps; position 2 scores strictly more, so Driver 1 is advantaged. -/
theorem points_swing_spec_witness :
    F1Tools.calculate_race_points 2 false false >
      F1Tools.calculate_race_points 5 false false ∧
    (F1Tools.calculate_points_swing 2 5 false false).advantage = "Driver 1" :=
  ⟨by decide, (points_swing_spec 2 5 false false).2.2.2.1 (by decide)⟩

set_option maxHeartbeats 1000000 in
/-- C3 counterexample: at `(400, 350, 3, 0)` the reported allowance is
`27 = 428 - 1 - 400`, and the leader scoring strictly fewer than 27
additional points is NOT exactly the condition for the leader's final total
to stay strictly below the chaser's best-case total 428: scoring exactly 27
gives the leader 427 < 428, yet `27 < 27` fails. -/
theorem leader_allowance_strict_bound_not_exact :
    ¬ (((27 : Int) < F1Tools.leader_points_allowance 400 350 3 0) ↔
       ((F1Tools.calculate_championship_scenario 400 350 3 0).analysis.leader_current
          + 27 <
        (F1Tools.calculate_championship_scenario 400 350 3 0).analysis.chaser_best_case_total)) := by
  decide

set_option maxHeartbeats 1000000 in
/-- C3 (amended): in the mathematically-possible case the result reports the
chaser's best-case total as chaser current points plus maximum remaining
points, the scenario condition carries the allowance
`chaser_best_case - 1 - leader_current`, and the leader scoring AT MOST that
allowance in additional points (not strictly fewer) is exactly the condition
for the leader's final total to stay strictly below the chaser's best-case
total. -/
theorem championship_open_iff_leader_within_allowance
    (p1 p2 r s : Int) (h : |p1 - p2| ≤ r * 26 + s * 8) :
    (F1Tools.calculate_championship_scenario p1 p2 r s).analysis.chaser_best_case_total =
      (F1Tools.calculate_championship_scenario p1 p2 r s).analysis.chaser_current +
        (F1Tools.calculate_championship_scenario p1 p2 r s).maximum_points_available ∧
    (F1Tools.calculate_championship_scenario p1 p2 r s).scenarios =
      [{ scenario := "Chaser wins all remaining races"
         outcome := "Championship possible"
         condition := "Leader must score fewer than " ++
           toString (F1Tools.leader_points_allowance p1 p2 r s) ++ " points total" }] ∧
    (∀ additional : Int,
      (additional ≤ F1Tools.leader_points_allowance p1 p2 r s ↔
        (F1Tools.calculate_championship_scenario p1 p2 r s).analysis.leader_current
            + additional <
          (F1Tools.calculate_championship_scenario p1 p2 r s).analysis.chaser_best_case_total)) := by
  refine ⟨rfl, ?_, ?_⟩
  · by_cases hp : p1 > p2 <;>
      simp [F1Tools.calculate_championship_scenario, F1Tools.leader_points_allowance, hp] <;>
      exact h
  · intro a
    unfold F1Tools.calculate_championship_scenario F1Tools.leader_points_allowance
    by_cases hp : p1 > p2 <;> simp [hp] <;> omega

/-- C3 witness: the amended equivalence applied at `(400, 350, 3, 0)` with
27 additional leader points: `27 ≤ 27` and `400 + 27 = 427 < 428`. -/
theorem championship_open_iff_leader_within_allowance_witness :
    (27 : Int) ≤ F1Tools.leader_points_allowance 400 350 3 0 ↔
      (F1Tools.calculate_championship_scenario 400 350 3 0).analysis.leader_current
          + 27 <
        (F1Tools.calculate_championship_scenario 400 350 3 0).analysis.chaser_best_case_total :=
  (championship_open_iff_leader_within_allowance 400 350 3 0 (by decide)).2.2 27

/-- Helper: with no standard races remaining (or a nonpositive count), the
guard `if races_remaining > 0` makes the average-points field 0. -/
lemma average_needed_eq_zero (p1 p2 r s : Int) (hr : r ≤ 0) :
    (F1Tools.calculate_championship_scenario p1 p2 r s).average_points_per_race_needed
      = 0 := by
  unfold F1Tools.calculate_championship_scenario
  simp only [show ¬ (r > 0) by omega, if_false, ite_false, if_neg, not_false_iff]
  simp [pyRound, roundHalfEven]

/-- C5 counterexample: `calculate_pit_stop_time_loss` is not total — with a
pit-lane speed limit of 0 the speed conversion yields `speed_ms = 0` and the
Python division `pit_lane_length_meters / speed_ms` raises
`ZeroDivisionError` (embedded as `none`). -/
theorem pit_stop_zero_speed_limit_raises :
    F1Tools.calculate_pit_stop_time_loss 255 0 2.5 = none := by
  norm_num [F1Tools.calculate_pit_stop_time_loss]

/-- C5 (amended): `calculate_race_points`, `calculate_points_swing` and
`calculate_championship_scenario` are total functions of their integer and
boolean inputs (they are plain `def`s into `Int` / `PointsSwingResult` /
`ChampionshipScenarioResult`, so totality is by construction), and
`calculate_championship_scenario` returns `average_points_per_race_needed = 0`
when `races_remaining` is zero or negative instead of dividing by zero;
`calculate_pit_stop_time_loss` returns a defined result for every nonzero
speed limit (negative included) but raises `ZeroDivisionError` when the
speed limit is 0. -/
theorem arithmetic_tools_totality :
    (∀ p1 p2 s : Int,
      (F1Tools.calculate_championship_scenario p1 p2 0 s).average_points_per_race_needed
        = 0) ∧
    (∀ p1 p2 r s : Int, r ≤ 0 →
      (F1Tools.calculate_championship_scenario p1 p2 r s).average_points_per_race_needed
        = 0) ∧
    (∀ (L t : ℚ) (v : Int), v ≠ 0 →
      (F1Tools.calculate_pit_stop_time_loss L v t).isSome = true) ∧
    (∀ L t : ℚ, F1Tools.calculate_pit_stop_time_loss L 0 t = none) := by
  refine ⟨fun p1 p2 s => average_needed_eq_zero p1 p2 0 s le_rfl,
    fun p1 p2 r s hr => average_needed_eq_zero p1 p2 r s hr, ?_, ?_⟩
  · intro L t v hv
    have hne : ((v : ℚ) / 3.6) ≠ 0 := by
      rw [div_ne_zero_iff]
      exact ⟨by exact_mod_cast hv, by norm_num⟩
    unfold F1Tools.calculate_pit_stop_time_loss
    rw [if_neg hne]
    rfl
  · intro L t
    norm_num [F1Tools.calculate_pit_stop_time_loss]

/-- C5 witness: the totality theorem applied with zero races remaining and
with the sample pit lane at a nonzero speed limit. -/
theorem arithmetic_tools_totality_witness :
    (F1Tools.calculate_championship_scenario 400 350 0 2).average_points_per_race_needed
      = 0 ∧
    (F1Tools.calculate_pit_stop_time_loss 255 80 2.5).isSome = true :=
  ⟨arithmetic_tools_totality.2.1 400 350 0 2 (by decide),
   arithmetic_tools_totality.2.2.1 255 2.5 80 (by decide)⟩

/-- C9: for every nonzero speed limit the returned fields are the formulas
`pit_lane_time = length / (speed / 3.6)`, `total = pit_lane_time + tire
change`, `time_loss = total - length / (200 / 3.6)`, each rounded to two
decimals, with the raw (unrounded) time loss retained to derive the
equivalent distance; the sample `(255, 80, 2.5)` has raw values exactly
11.475 s, 13.975 s and 9.385 s, within 0.005 s of the quoted 11.48 s,
13.98 s and 9.39 s. -/
theorem pit_stop_time_loss_spec (L t : ℚ) (v : Int) (hv : v ≠ 0) :
    F1Tools.calculate_pit_stop_time_loss L v t = some
      { pit_lane_time_seconds := pyRound (F1Tools.pit_lane_time_raw L v) 2
        tire_change_time_seconds := t
        total_pit_stop_time := pyRound (F1Tools.total_pit_time_raw L v t) 2
        time_loss_vs_racing := pyRound (F1Tools.time_loss_raw L v t) 2
        details :=
          { pit_lane_length_m := L
            speed_limit_kmh := v
            equivalent_distance_lost_m :=
              pyRound (F1Tools.time_loss_raw L v t * F1Tools.racing_speed_ms) 0 } } ∧
    F1Tools.pit_lane_time_raw 255 80 = 459/40 ∧
    |F1Tools.pit_lane_time_raw 255 80 - 11.48| ≤ 1/200 ∧
    F1Tools.total_pit_time_raw 255 80 2.5 = 559/40 ∧
    |F1Tools.total_pit_time_raw 255 80 2.5 - 13.98| ≤ 1/200 ∧
    F1Tools.time_loss_raw 255 80 2.5 = 1877/200 ∧
    |F1Tools.time_loss_raw 255 80 2.5 - 9.39| ≤ 1/200 := by
  have hne : ((v : ℚ) / 3.6) ≠ 0 := by
    rw [div_ne_zero_iff]
    exact ⟨by exact_mod_cast hv, by norm_num⟩
  constructor
  · unfold F1Tools.calculate_pit_stop_time_loss F1Tools.time_loss_raw
      F1Tools.total_pit_time_raw F1Tools.pit_lane_time_raw F1Tools.racing_speed_ms
    rw [if_neg hne]
  · norm_num [F1Tools.pit_lane_time_raw, F1Tools.total_pit_time_raw,
      F1Tools.time_loss_raw, abs_le]

/-- C9 witness: the formula theorem applied at the sample pit lane
`(255 m, 80 km/h, 2.5 s)`. -/
theorem pit_stop_time_loss_spec_witness :
    F1Tools.calculate_pit_stop_time_loss 255 80 2.5 = some
      { pit_lane_time_seconds := pyRound (F1Tools.pit_lane_time_raw 255 80) 2
        tire_change_time_seconds := 2.5
        total_pit_stop_time := pyRound (F1Tools.total_pit_time_raw 255 80 2.5) 2
        time_loss_vs_racing := pyRound (F1Tools.time_loss_raw 255 80 2.5) 2
        details :=
          { pit_lane_length_m := 255
            speed_limit_kmh := 80
            equivalent_distance_lost_m :=
              pyRound (F1Tools.time_loss_raw 255 80 2.5 * F1Tools.racing_speed_ms) 0 } } :=
  (pit_stop_time_loss_spec 255 2.5 80 (by decide)).1

/-- C1: `get_context_for_agent` is total over a string question — it returns
a `String` by construction, never an exception; when `query` reports zero
matches the result is the fixed sentinel, and when `query` (including the
embedding/index call behind the retriever) raises any exception the result
is the human-readable string "Error accessing regulations: " followed by the
exception text. -/
theorem get_context_never_raises (rag : F1TechnicalRAG) (question : String) :
    (∀ e : RagError, rag.query question = Except.error e →
      rag.get_context_for_agent question =
        "Error accessing regulations: " ++ e.message) ∧
    (∀ r : QueryResult, rag.query question = Except.ok r → r.num_sources = 0 →
      rag.get_context_for_agent question =
        "No relevant information found in the regulations.") := by
  constructor
  · intro e he
    unfold F1TechnicalRAG.get_context_for_agent
    rw [he]
  · intro r hr h0
    unfold F1TechnicalRAG.get_context_for_agent
    rw [hr]
    simp [h0]

/-- C1 witness: on an uninitialized pipeline the `ValueError` from `query` is
converted to an error string; on an empty index the sentinel is returned. -/
theorem get_context_never_raises_witness :
    ragUninitialized.get_context_for_agent "What is DRS?" =
      "Error accessing regulations: RAG pipeline not initialized. Call load_and_process_pdf() first." ∧
    ragEmptyIndex.get_context_for_agent "What is DRS?" =
      "No relevant information found in the regulations." := by
  constructor
  · exact (get_context_never_raises ragUninitialized "What is DRS?").1
      (RagError.valueError
        "RAG pipeline not initialized. Call load_and_process_pdf() first.") rfl
  · exact (get_context_never_raises ragEmptyIndex "What is DRS?").2
      { context := "", sources := [], num_sources := 0 } rfl rfl

/-- C6: whenever the retriever returns a list of documents (at most the
configured `search_k = 4` of them), `query` returns `num_sources` equal to
the number of documents retrieved and a context string formatting each
document as `[Source: Page <n>]`, a newline and the chunk text, the blocks
joined by blank lines in retrieval order. -/
theorem query_formats_retrieved_documents
    (rag : F1TechnicalRAG) (retr : String → Except RagError (List Doc))
    (q : String) (docs : List Doc)
    (hretr : rag.retriever = some retr) (hdocs : retr q = Except.ok docs)
    (hk : docs.length ≤ search_k) :
    rag.query q = Except.ok
      { context := String.intercalate "\n\n" (docs.map (fun doc =>
          "[Source: Page " ++
            (match doc.page with
             | some n => toString n
             | none => "unknown") ++ "]\n" ++ doc.page_content))
        sources := docs
        num_sources := docs.length } ∧
    docs.length ≤ 4 := by
  constructor
  · unfold F1TechnicalRAG.query
    rw [hretr]
    dsimp only
    rw [hdocs]
    exact rfl
  · simpa [search_k] using hk

/-- C6 witness: the two-document sample index formats both pages with their
citations in order and reports two sources. -/
theorem query_formats_retrieved_documents_witness :
    ragReady.query "brake ducts" = Except.ok
      { context := "[Source: Page 12]\nArticle 5.1 text\n\n[Source: Page 3]\nArticle 7 text"
        sources := [docA, docB]
        num_sources := 2 } ∧
    ([docA, docB] : List Doc).length ≤ 4 :=
  query_formats_retrieved_documents ragReady sampleRetriever "brake ducts"
    [docA, docB] rfl rfl (by decide)

/-- C7: building the retrieval core with a document path that does not exist
on the filesystem fails with `FileNotFoundError` from the constructor, and
`initialize_rag_pipeline` therefore aborts with that error before any
loading, chunking, embedding or index work (its build trace is empty). -/
theorem initialize_fails_fast_on_missing_pdf
    (fs : String → Bool) (retr : String → Except RagError (List Doc))
    (cwd pdf_path : String) (h : fs pdf_path = false) :
    F1TechnicalRAG.init fs cwd pdf_path = Except.error (RagError.fileNotFound
      ("Please place the F1 regulations PDF at " ++ pdf_path ++
        "\nCurrent working directory: " ++ cwd)) ∧
    initialize_rag_pipeline fs retr cwd pdf_path = (Except.error
      (RagError.fileNotFound
        ("Please place the F1 regulations PDF at " ++ pdf_path ++
          "\nCurrent working directory: " ++ cwd)), []) := by
  have hinit : F1TechnicalRAG.init fs cwd pdf_path = Except.error
      (RagError.fileNotFound
        ("Please place the F1 regulations PDF at " ++ pdf_path ++
          "\nCurrent working directory: " ++ cwd)) := by
    unfold F1TechnicalRAG.init
    simp [h]
  refine ⟨hinit, ?_⟩
  unfold initialize_rag_pipeline
  rw [hinit]

/-- C7 witness: the theorem applied on a filesystem with no files at all. -/
theorem initialize_fails_fast_on_missing_pdf_witness :
    initialize_rag_pipeline emptyFs sampleRetriever "/app" "data/fia2026.pdf" =
      (Except.error (RagError.fileNotFound
        ("Please place the F1 regulations PDF at " ++ "data/fia2026.pdf" ++
          "\nCurrent working directory: " ++ "/app")), []) :=
  (initialize_fails_fast_on_missing_pdf emptyFs sampleRetriever "/app"
    "data/fia2026.pdf" rfl).2

/-- C10: on a filesystem where the persisted index `./chroma_db` exists but
the source PDF `data/fia2026.pdf` does not, `initialize_rag_pipeline` still
fails with `FileNotFoundError`: the constructor's existence check runs
unconditionally before the existing-index branch, so startup aborts with an
empty build trace even though the load path would have done no embedding
work. -/
theorem missing_pdf_aborts_despite_existing_index
    (retr : String → Except RagError (List Doc)) (cwd : String) :
    fsIndexOnly "./chroma_db" = true ∧
    fsIndexOnly "data/fia2026.pdf" = false ∧
    initialize_rag_pipeline fsIndexOnly retr cwd "data/fia2026.pdf" =
      (Except.error (RagError.fileNotFound
        ("Please place the F1 regulations PDF at " ++ "data/fia2026.pdf" ++
          "\nCurrent working directory: " ++ cwd)), []) :=
  ⟨rfl, rfl, rfl⟩
